import Mathlib

set_option autoImplicit false

/-!
Shallow embedding of `facedancer/interface.py` (class `USBInterface`).

Python dictionaries are modelled as insertion-ordered association lists
(`List (κ × α)`), matching CPython's guaranteed insertion order, which the
source relies on when iterating `self.endpoints.values()` and when encoding
descriptors.  Raised exceptions are modelled with `Except String`.  The
collaborating classes that live in other files of the repository
(`USBEndpoint`, `USBDescriptor`, `StringRef`, the owning configuration and
device) are modelled from the spec where noted.
-/

namespace Facedancer

/-- Lookup in a Python-dict model: first (and only) binding of the key. -/
def dictFind {κ α : Type} [DecidableEq κ] (k : κ) : List (κ × α) → Option α
  | [] => none
  | (k', v) :: rest => if k' = k then some v else dictFind k rest

/-- Membership test, as Python's `k in d`. -/
def dictContains {κ α : Type} [DecidableEq κ] (k : κ) (d : List (κ × α)) : Bool :=
  (dictFind k d).isSome

/-- Python's `d[k] = v`: replace in place when the key exists, else append. -/
def dictInsert {κ α : Type} [DecidableEq κ] (k : κ) (v : α) : List (κ × α) → List (κ × α)
  | [] => [(k, v)]
  | (k', v') :: rest => if k' = k then (k, v) :: rest else (k', v') :: dictInsert k v rest

/-- Python's `d.values()` in insertion order. -/
def dictValues {κ α : Type} (d : List (κ × α)) : List α :=
  d.map Prod.snd

/-- Modelled from the spec: `USBDirection` from `facedancer/types.py` (not under
`src/`); a transfer direction, `OUT` (host to device) or `IN` (device to host). -/
inductive USBDirection : Type
  | OUT
  | IN
  deriving DecidableEq, Repr

/-- Modelled from the spec: a descriptor-source is either a static byte blob or
a zero-argument producer invoked lazily at encode time (`callable(descriptor)`
in `USBInterface.get_descriptor`). -/
inductive DescriptorSource : Type
  | static (blob : List Nat)
  | lazy (producer : Unit → List Nat)

/-- Resolution of a descriptor-source at encode time: a static blob is its own
bytes, a lazy producer is invoked with no arguments. -/
def DescriptorSource.resolve : DescriptorSource → List Nat
  | .static blob => blob
  | .lazy producer => producer ()

/-- Identifier of an interface, used as a surrogate for Python object identity
in parent links. -/
abbrev InterfaceId : Type := Nat × Nat

/-- Modelled from the spec: the fields of `USBDescriptor`
(`facedancer/descriptor.py`, not under `src/`) that `interface.py` reads:
`type_number`, `number` (may be null), `include_in_config`, its byte content
(static or lazily produced), and the parent back-reference. -/
structure USBDescriptor : Type where
  type_number : Nat
  number : Option Nat
  include_in_config : Bool
  source : DescriptorSource
  parent : Option InterfaceId

/-- Modelled from the spec: `USBDescriptor.get_identifier()` computes the
identifier `(type_number, number)`. -/
def USBDescriptor.get_identifier (d : USBDescriptor) : Nat × Option Nat :=
  (d.type_number, d.number)

/-- Modelled from the spec: the fields of `USBEndpoint`
(`facedancer/endpoint.py`, not under `src/`) that `interface.py` reads:
`number`, `direction`, its descriptor bytes, its attached descriptor-sources,
and the parent back-reference. -/
structure USBEndpoint : Type where
  number : Nat
  direction : USBDirection
  descriptorBytes : List Nat
  attached_descriptors : List USBDescriptor
  parent : Option InterfaceId

/-- Modelled from the spec: `USBEndpoint.address_for_number` encodes
`(endpoint_number, direction)` as the single address byte
`(number AND 0x7F) OR (0x80 when IN)`. -/
def USBEndpoint.address_for_number (number : Nat) (direction : USBDirection) : Nat :=
  number % 128 + (match direction with | .IN => 128 | .OUT => 0)

/-- Modelled from the spec: an endpoint's address byte, derived from its
number and direction. -/
def USBEndpoint.address (e : USBEndpoint) : Nat :=
  USBEndpoint.address_for_number e.number e.direction

/-- State of a `USBInterface` (the dataclass fields of `interface.py`).
`name` and `interface_string` model `StringRef`/string fields as optional
strings. -/
structure USBInterface : Type where
  name : Option String := some "generic USB interface"
  number : Nat := 0
  alternate : Nat := 0
  class_number : Nat := 0
  subclass_number : Nat := 0
  protocol_number : Nat := 0
  interface_string : Option String := none
  attached_descriptors : List USBDescriptor := []
  requestable_descriptors : List ((Nat × Option Nat) × USBDescriptor) := []
  endpoints : List (Nat × USBEndpoint) := []

/-- The interface identifier `(number, alternate)` (`get_identifier`). -/
def USBInterface.get_identifier (i : USBInterface) : InterfaceId :=
  (i.number, i.alternate)

/-- Loose identifier match used by request dispatch (`matches_identifier`):
compares the interface number only. -/
def USBInterface.matches_identifier (i : USBInterface) (other : Nat) : Bool :=
  other = i.number

/-- Modelled from the spec: `StringRef.lookup(strings, index)` resolves a
string-table index through the supplied table. -/
def StringRef.lookup (strings : Nat → Option String) (index : Nat) : Option String :=
  strings index

/-- Embedding of `USBInterface.from_binary_descriptor`: unpacks the 9-byte
descriptor with format `xxBBBBBBB` (skipping the two leading bytes, failing
when fewer than 9 bytes are available), discards the endpoint-count byte, and
builds a fresh interface with all registries left at their (empty) defaults. -/
def USBInterface.from_binary_descriptor (data : List Nat) (strings : Nat → Option String) :
    Option USBInterface :=
  if 9 ≤ data.length then
    some { name := none
           number := data.getD 2 0
           alternate := data.getD 3 0
           class_number := data.getD 5 0
           subclass_number := data.getD 6 0
           protocol_number := data.getD 7 0
           interface_string := StringRef.lookup strings (data.getD 8 0) }
  else
    none

/-- Embedding of `USBInterface.add_endpoint`: reject a duplicate address,
otherwise insert the endpoint under its address with its parent link set to
this interface. -/
def USBInterface.add_endpoint (i : USBInterface) (endpoint : USBEndpoint) :
    Except String USBInterface :=
  if dictContains endpoint.address i.endpoints then
    .error "DuplicateEndpointAddress"
  else
    let endpoint' := { endpoint with parent := some i.get_identifier }
    .ok { i with endpoints := dictInsert endpoint.address endpoint' i.endpoints }

/-- Embedding of `USBInterface.get_endpoint`: address-keyed lookup of a
subordinate endpoint by number and direction. -/
def USBInterface.get_endpoint (i : USBInterface) (endpoint_number : Nat)
    (direction : USBDirection) : Option USBEndpoint :=
  dictFind (USBEndpoint.address_for_number endpoint_number direction) i.endpoints

/-- Embedding of `USBInterface.has_endpoint`. -/
def USBInterface.has_endpoint (i : USBInterface) (endpoint_number : Nat)
    (direction : USBDirection) : Bool :=
  (i.get_endpoint endpoint_number direction).isSome

/-- Embedding of `USBInterface.add_descriptor`: a descriptor marked for
inclusion in the configuration block is appended to `attached_descriptors`
unconditionally; otherwise a null number or a duplicate `(type_number, number)`
identifier is rejected, else the descriptor is inserted into
`requestable_descriptors`.  The parent link is set in both success branches. -/
def USBInterface.add_descriptor (i : USBInterface) (descriptor : USBDescriptor) :
    Except String USBInterface :=
  let identifier := descriptor.get_identifier
  let descriptor' := { descriptor with parent := some i.get_identifier }
  if descriptor.include_in_config then
    .ok { i with attached_descriptors := i.attached_descriptors ++ [descriptor'] }
  else if descriptor.number = none then
    .error "MissingDescriptorNumber"
  else if dictContains identifier i.requestable_descriptors then
    .error "DuplicateDescriptorIdentifier"
  else
    .ok { i with requestable_descriptors :=
            dictInsert identifier descriptor' i.requestable_descriptors }

/-- Embedding of `USBInterface.get_descriptor` (USB 2.0 Table 9-12): the
9-byte header, then each attached descriptor-source resolved in insertion
order, then for each endpoint in registry order its descriptor bytes followed
by its own attached descriptor-sources.  The device string table's
`get_index` is passed explicitly. -/
def USBInterface.get_descriptor (get_index : Option String → Nat) (i : USBInterface) :
    List Nat :=
  let d : List Nat :=
    [9, 4, i.number, i.alternate, i.endpoints.length,
     i.class_number, i.subclass_number, i.protocol_number,
     get_index i.interface_string]
  let d := i.attached_descriptors.foldl
    (fun acc descriptor => acc ++ descriptor.source.resolve) d
  let d := (dictValues i.endpoints).foldl
    (fun acc e =>
      e.attached_descriptors.foldl
        (fun acc2 descriptor => acc2 ++ descriptor.source.resolve)
        (acc ++ e.descriptorBytes)) d
  d

/-- Modelled from the spec: the owning configuration's state that the request
router reads and writes — the interface table keyed by `(number, alternate)`
and the active-alternate map keyed by interface number. -/
structure USBConfiguration : Type where
  interfaces : List (InterfaceId × USBInterface)
  active_interfaces : List (Nat × USBInterface)

/-- Modelled from the spec: the fields of a control request that the handlers
read — the low index byte and the value field. -/
structure USBControlRequest : Type where
  index_low : Nat
  value : Nat

/-- The response primitive a handler invokes on the request: a zero-length
acknowledge, a protocol stall, or a data reply. -/
inductive Response : Type
  | acknowledge
  | stall
  | reply (data : List Nat)
  deriving Repr

/-- A recorded call to the backend's `clear_halt(number, direction)`. -/
abbrev ClearHaltCall : Type := Nat × USBDirection

/-- Embedding of `USBInterface.handle_set_interface_request`.  The parent
chain (`self.parent` configuration, its parent device) is passed explicitly;
`device_configuration` is the device's active-configuration slot tested
against `None`.  The result carries the configuration state after the call,
the `clear_halt` calls issued to the backend in order, and the response. -/
def handle_set_interface_request (configuration : USBConfiguration)
    (device_configuration : Option Unit) (request : USBControlRequest) :
    USBConfiguration × List ClearHaltCall × Response :=
  if device_configuration = none then
    (configuration, [], .stall)
  else
    let number := request.index_low
    let alternate := request.value
    let identifier := (number, alternate)
    match dictFind identifier configuration.interfaces with
    | none => (configuration, [], .stall)
    | some interface =>
        let active' := dictInsert number interface configuration.active_interfaces
        let configuration' := { configuration with active_interfaces := active' }
        let calls := (dictValues interface.endpoints).map
          (fun endpoint => (endpoint.number, endpoint.direction))
        (configuration', calls, .acknowledge)

/-- Embedding of `USBInterface.handle_get_interface_request`: stall when the
device is unconfigured or the active-alternate map has no entry for the
requested number, else reply with the single byte `interface.alternate`. -/
def handle_get_interface_request (configuration : USBConfiguration)
    (device_configuration : Option Unit) (request : USBControlRequest) : Response :=
  if device_configuration = none then
    .stall
  else
    match dictFind request.index_low configuration.active_interfaces with
    | none => .stall
    | some interface => .reply [interface.alternate]

/-- Outcome of `handle_data_received`: the event is forwarded to an endpoint's
`handle_data_received`, or reported to the device's
`handle_unexpected_data_received` with the raw endpoint number and payload. -/
inductive DataReceivedResult : Type
  | forwarded (endpoint : USBEndpoint) (data : List Nat)
  | unexpected (number : Nat) (data : List Nat)

/-- Embedding of `USBInterface.handle_data_received`: when the registry has an
endpoint for the event's number and direction the event endpoint's own handler
is invoked with the data, otherwise the device is told of unexpected data. -/
def handle_data_received (i : USBInterface) (endpoint : USBEndpoint) (data : List Nat) :
    DataReceivedResult :=
  if i.has_endpoint endpoint.number endpoint.direction then
    .forwarded endpoint data
  else
    .unexpected endpoint.number data

/-- Outcome of `handle_data_requested`: forwarded to an endpoint's
`handle_data_requested`, or reported via `handle_unexpected_data_requested`. -/
inductive DataRequestedResult : Type
  | forwarded (endpoint : USBEndpoint)
  | unexpected (number : Nat)

/-- Embedding of `USBInterface.handle_data_requested`. -/
def handle_data_requested (i : USBInterface) (endpoint : USBEndpoint) :
    DataRequestedResult :=
  if i.has_endpoint endpoint.number endpoint.direction then
    .forwarded endpoint
  else
    .unexpected endpoint.number

/-- State of the receiver after a Python call that may raise: the returned
object on success, the receiver unchanged when an exception is raised. -/
def exceptState {ε α : Type} (pre : α) : Except ε α → α
  | .ok a => a
  | .error _ => pre

@[simp]
theorem dictFind_dictInsert_self {κ α : Type} [DecidableEq κ] (k : κ) (v : α)
    (d : List (κ × α)) : dictFind k (dictInsert k v d) = some v := by
  induction d with
  | nil => simp [dictInsert, dictFind]
  | cons p rest ih =>
      by_cases h : p.1 = k
      · simp [dictInsert, dictFind, h]
      · simpa [dictInsert, dictFind, h] using ih

theorem dictFind_dictInsert_ne {κ α : Type} [DecidableEq κ] (k k' : κ) (v : α)
    (d : List (κ × α)) (h : k' ≠ k) :
    dictFind k' (dictInsert k v d) = dictFind k' d := by
  induction d with
  | nil => simp [dictInsert, dictFind, Ne.symm h]
  | cons p rest ih =>
      obtain ⟨a, b⟩ := p
      by_cases hp : a = k
      · subst hp
        simp [dictInsert, dictFind, Ne.symm h]
      · by_cases hp' : a = k'
        · simp [dictInsert, dictFind, hp, hp', h]
        · simp [dictInsert, dictFind, hp, hp', ih]

theorem dictFind_mem {κ α : Type} [DecidableEq κ] {k : κ} {v : α}
    {d : List (κ × α)} (h : dictFind k d = some v) : (k, v) ∈ d := by
  induction d with
  | nil => simp [dictFind] at h
  | cons p rest ih =>
      by_cases hp : p.1 = k
      · subst hp
        simp [dictFind] at h
        subst h
        exact List.mem_cons_self _ _
      · simp [dictFind, hp] at h
        exact List.mem_cons_of_mem _ (ih h)

@[simp]
theorem dictValues_length {κ α : Type} (d : List (κ × α)) :
    (dictValues d).length = d.length := by
  simp [dictValues]

/-- Claim C1: a `SET_INTERFACE` hit — the requested `(index_low, value)` pair
is a key of the owning configuration's interface table and the device is
configured — stores the found interface in the active-alternate map under the
requested number (leaving every other entry alone and the interface table
untouched), issues one `clear_halt` per endpoint of the found interface with
that endpoint's number and direction, and acknowledges. -/
theorem handle_set_interface_hit
    (configuration : USBConfiguration) (dev : Option Unit)
    (request : USBControlRequest) (interface : USBInterface)
    (hdev : dev ≠ none)
    (hfind : dictFind (request.index_low, request.value) configuration.interfaces =
      some interface) :
    (handle_set_interface_request configuration dev request).2.2 =
        Response.acknowledge ∧
    dictFind request.index_low
        (handle_set_interface_request configuration dev request).1.active_interfaces =
      some interface ∧
    (∀ n, n ≠ request.index_low →
      dictFind n
          (handle_set_interface_request configuration dev request).1.active_interfaces =
        dictFind n configuration.active_interfaces) ∧
    (handle_set_interface_request configuration dev request).1.interfaces =
      configuration.interfaces ∧
    (handle_set_interface_request configuration dev request).2.1 =
      (dictValues interface.endpoints).map (fun e => (e.number, e.direction)) ∧
    (handle_set_interface_request configuration dev request).2.1.length =
      interface.endpoints.length := by
  have hr : handle_set_interface_request configuration dev request =
      ({ configuration with active_interfaces := dictInsert request.index_low interface configuration.active_interfaces }, (dictValues interface.endpoints).map (fun e => (e.number, e.direction)), Response.acknowledge) := by
    simp [handle_set_interface_request, hdev, hfind]
  rw [hr]
  refine ⟨rfl, dictFind_dictInsert_self _ _ _, ?_, rfl, rfl, by simp⟩
  intro n hn
  exact dictFind_dictInsert_ne _ _ _ _ hn

theorem set_interface_stall_aux
    (configuration : USBConfiguration) (dev : Option Unit)
    (request : USBControlRequest)
    (h : dev = none ∨
      dictFind (request.index_low, request.value) configuration.interfaces = none) :
    handle_set_interface_request configuration dev request =
      (configuration, [], Response.stall) := by
  rcases h with h | h
  · simp [handle_set_interface_request, h]
  · by_cases hdev : dev = none
    · simp [handle_set_interface_request, hdev]
    · simp [handle_set_interface_request, hdev, h]

/-- Claim C3: a `SET_INTERFACE` request on an unconfigured device, or whose
`(index_low, value)` pair is not a key of the interface table, stalls, leaves
the whole configuration (in particular the active-alternate map) unchanged,
and issues no `clear_halt` call. -/
theorem handle_set_interface_miss
    (configuration : USBConfiguration) (dev : Option Unit)
    (request : USBControlRequest)
    (h : dev = none ∨
      dictFind (request.index_low, request.value) configuration.interfaces = none) :
    handle_set_interface_request configuration dev request =
      (configuration, [], Response.stall) :=
  set_interface_stall_aux configuration dev request h

/-- Claim C4: `GET_INTERFACE` stalls on an unconfigured device and on a miss
in the active-alternate map; on a hit it replies with exactly one byte, the
found entry's `alternate` field.  Consequently, when the configuration's
interface table is keyed by the interfaces' identifiers, a `GET_INTERFACE`
issued after a successful `SET_INTERFACE` selecting `(N, A)` replies with the
single byte `A`. -/
theorem handle_get_interface_spec
    (configuration : USBConfiguration) (dev : Option Unit)
    (request : USBControlRequest) :
    (dev = none →
      handle_get_interface_request configuration dev request = Response.stall) ∧
    (dev ≠ none →
      dictFind request.index_low configuration.active_interfaces = none →
      handle_get_interface_request configuration dev request = Response.stall) ∧
    (∀ interface : USBInterface, dev ≠ none →
      dictFind request.index_low configuration.active_interfaces = some interface →
      handle_get_interface_request configuration dev request =
        Response.reply [interface.alternate]) ∧
    (∀ (requestS : USBControlRequest) (configuration' : USBConfiguration)
        (calls : List ClearHaltCall),
      (∀ p ∈ configuration.interfaces, USBInterface.get_identifier p.2 = p.1) →
      handle_set_interface_request configuration dev requestS =
        (configuration', calls, Response.acknowledge) →
      request.index_low = requestS.index_low →
      handle_get_interface_request configuration' dev request =
        Response.reply [requestS.value]) := by
  refine ⟨?_, ?_, ?_, ?_⟩
  · intro h
    simp [handle_get_interface_request, h]
  · intro hdev h
    simp [handle_get_interface_request, hdev, h]
  · intro interface hdev h
    simp [handle_get_interface_request, hdev, h]
  · intro requestS configuration' calls hwf hset hidx
    by_cases hdev : dev = none
    · rw [set_interface_stall_aux configuration dev requestS (Or.inl hdev)] at hset
      simp at hset
    · cases hfind : dictFind (requestS.index_low, requestS.value) configuration.interfaces with
      | none =>
          rw [set_interface_stall_aux configuration dev requestS (Or.inr hfind)] at hset
          simp at hset
      | some interface =>
          have hr : handle_set_interface_request configuration dev requestS =
              ({ configuration with active_interfaces := dictInsert requestS.index_low interface configuration.active_interfaces }, (dictValues interface.endpoints).map (fun e => (e.number, e.direction)), Response.acknowledge) := by
            simp [handle_set_interface_request, hdev, hfind]
          rw [hr] at hset
          have hcfg : configuration' =
              { configuration with active_interfaces := dictInsert requestS.index_low interface configuration.active_interfaces } := by
            have := congrArg Prod.fst hset
            simpa using this.symm
          have halt : interface.alternate = requestS.value := by
            have hmem := dictFind_mem hfind
            have h2 : (interface.number, interface.alternate) =
                (requestS.index_low, requestS.value) := hwf _ hmem
            exact congrArg Prod.snd h2
          subst hcfg
          simp [handle_get_interface_request, hdev, hidx,
            dictFind_dictInsert_self, halt]

/-- Endpoint 1 IN used by the concrete test fixtures. -/
def epIn1 : USBEndpoint :=
  { number := 1, direction := .IN, descriptorBytes := [7, 5, 129, 2, 64, 0, 0],
    attached_descriptors := [], parent := none }

/-- Endpoint 2 OUT used by the concrete test fixtures. -/
def epOut2 : USBEndpoint :=
  { number := 2, direction := .OUT, descriptorBytes := [7, 5, 2, 2, 64, 0, 0],
    attached_descriptors := [], parent := none }

/-- Interface `(0, 1)` with two endpoints, used by the concrete fixtures. -/
def ifaceAlt1 : USBInterface :=
  { number := 0, alternate := 1,
    endpoints := [(epIn1.address, epIn1), (epOut2.address, epOut2)] }

/-- A configuration owning the single interface `(0, 1)`, with an empty
active-alternate map. -/
def cfgFix : USBConfiguration :=
  { interfaces := [((0, 1), ifaceAlt1)], active_interfaces := [] }

/-- Witness for claim C1 at the concrete fixture: selecting alternate `(0,1)`
acknowledges and clears the halt state of both endpoints. -/
theorem handle_set_interface_hit_witness :
    (handle_set_interface_request cfgFix (some ()) ⟨0, 1⟩).2.2 =
        Response.acknowledge ∧
    dictFind 0 (handle_set_interface_request cfgFix (some ()) ⟨0, 1⟩).1.active_interfaces =
      some ifaceAlt1 ∧
    (handle_set_interface_request cfgFix (some ()) ⟨0, 1⟩).2.1 =
      [(1, USBDirection.IN), (2, USBDirection.OUT)] := by
  have h := handle_set_interface_hit cfgFix (some ()) ⟨0, 1⟩ ifaceAlt1
    (by simp) (by rfl)
  refine ⟨h.1, h.2.1, ?_⟩
  rw [h.2.2.2.2.1]
  rfl

/-- Witness for claim C3 at the concrete fixture: requesting the unknown
alternate `(0, 5)` stalls and changes nothing. -/
theorem handle_set_interface_miss_witness :
    handle_set_interface_request cfgFix (some ()) ⟨0, 5⟩ =
      (cfgFix, [], Response.stall) :=
  handle_set_interface_miss cfgFix (some ()) ⟨0, 5⟩ (Or.inr rfl)

/-- The configuration fixture after alternate `(0, 1)` has been activated. -/
def cfgFixActive : USBConfiguration :=
  { interfaces := [((0, 1), ifaceAlt1)], active_interfaces := [(0, ifaceAlt1)] }

/-- Witness for claim C4 at the concrete fixture: after `SET_INTERFACE(0, 1)`
succeeds, `GET_INTERFACE(0)` replies with the single byte `1`. -/
theorem handle_get_interface_spec_witness :
    handle_get_interface_request cfgFixActive (some ()) ⟨0, 77⟩ =
      Response.reply [1] := by
  refine (handle_get_interface_spec cfgFix (some ()) ⟨0, 77⟩).2.2.2
    ⟨0, 1⟩ cfgFixActive [(1, .IN), (2, .OUT)] ?_ ?_ rfl
  · intro p hp
    simp [cfgFix] at hp
    subst hp
    rfl
  · rfl

/-- Claim C5: `add_endpoint` fails exactly when an endpoint with the same
address byte is already registered; a failed call leaves the interface (and so
the registry, with its original entry) exactly as it was, while a successful
call inserts the endpoint under its address with its parent link set to this
interface. -/
theorem add_endpoint_spec (i : USBInterface) (endpoint : USBEndpoint) :
    ((∃ msg, i.add_endpoint endpoint = .error msg) ↔
      dictContains endpoint.address i.endpoints = true) ∧
    (dictContains endpoint.address i.endpoints = true →
      i.add_endpoint endpoint = .error "DuplicateEndpointAddress" ∧
      exceptState i (i.add_endpoint endpoint) = i) ∧
    (dictContains endpoint.address i.endpoints = false →
      i.add_endpoint endpoint =
        .ok { i with endpoints := dictInsert endpoint.address ({ endpoint with parent := some i.get_identifier }) i.endpoints } ∧
      dictFind endpoint.address (exceptState i (i.add_endpoint endpoint)).endpoints =
        some ({ endpoint with parent := some i.get_identifier })) := by
  by_cases hc : dictContains endpoint.address i.endpoints = true
  · have h1 : i.add_endpoint endpoint = .error "DuplicateEndpointAddress" := by
      simp [USBInterface.add_endpoint, hc]
    exact ⟨⟨fun _ => hc, fun _ => ⟨_, h1⟩⟩, fun _ => ⟨h1, by simp [exceptState, h1]⟩,
      fun hf => by simp [hc] at hf⟩
  · have hc' : dictContains endpoint.address i.endpoints = false := by
      simpa using hc
    refine ⟨⟨fun ⟨msg, hmsg⟩ => ?_, fun ht => absurd ht hc⟩, fun ht => absurd ht hc,
      fun _ => ⟨?_, ?_⟩⟩
    · simp [USBInterface.add_endpoint, hc'] at hmsg
    · simp [USBInterface.add_endpoint, hc']
    · simp [USBInterface.add_endpoint, hc', exceptState]

/-- Claim C6: for a descriptor not marked include-in-config, `add_descriptor`
fails on a null descriptor number and on a duplicate `(type_number, number)`
identifier, leaving both descriptor registries untouched; otherwise it inserts
the descriptor into `requestable_descriptors` under its identifier with its
parent link set to this interface. -/
theorem add_descriptor_requestable_spec (i : USBInterface) (descriptor : USBDescriptor)
    (hcfg : descriptor.include_in_config = false) :
    (descriptor.number = none →
      i.add_descriptor descriptor = .error "MissingDescriptorNumber") ∧
    (descriptor.number ≠ none →
      dictContains descriptor.get_identifier i.requestable_descriptors = true →
      i.add_descriptor descriptor = .error "DuplicateDescriptorIdentifier") ∧
    ((∃ msg, i.add_descriptor descriptor = .error msg) →
      exceptState i (i.add_descriptor descriptor) = i) ∧
    (descriptor.number ≠ none →
      dictContains descriptor.get_identifier i.requestable_descriptors = false →
      i.add_descriptor descriptor =
        .ok { i with requestable_descriptors := dictInsert descriptor.get_identifier ({ descriptor with parent := some i.get_identifier }) i.requestable_descriptors }) := by
  refine ⟨fun hnum => ?_, fun hnum hdup => ?_, fun ⟨msg, hmsg⟩ => ?_, fun hnum hfresh => ?_⟩
  · simp [USBInterface.add_descriptor, hcfg, hnum]
  · simp [USBInterface.add_descriptor, hcfg, hnum, hdup]
  · by_cases hnum : descriptor.number = none
    · simp [USBInterface.add_descriptor, hcfg, hnum, exceptState]
    · by_cases hdup : dictContains descriptor.get_identifier i.requestable_descriptors = true
      · simp [USBInterface.add_descriptor, hcfg, hnum, hdup, exceptState]
      · simp [USBInterface.add_descriptor, hcfg, hnum, hdup, exceptState] at hmsg
  · simp [USBInterface.add_descriptor, hcfg, hnum, hfresh]

/-- Claim C9: a descriptor marked include-in-config is always accepted by
`add_descriptor`: it is appended to `attached_descriptors` with its parent
link set, with no check on its number or identifier; every failure of
`add_descriptor` therefore concerns a descriptor not marked
include-in-config. -/
theorem add_descriptor_attached_spec (i : USBInterface) (descriptor : USBDescriptor) :
    (descriptor.include_in_config = true →
      i.add_descriptor descriptor =
        .ok { i with attached_descriptors := i.attached_descriptors ++ [({ descriptor with parent := some i.get_identifier })] }) ∧
    ((∃ msg, i.add_descriptor descriptor = .error msg) →
      descriptor.include_in_config = false) := by
  constructor
  · intro hcfg
    simp [USBInterface.add_descriptor, hcfg]
  · rintro ⟨msg, hmsg⟩
    by_cases hcfg : descriptor.include_in_config = true
    · simp [USBInterface.add_descriptor, hcfg] at hmsg
    · simpa using hcfg

/-- Interface fixture owning endpoint `0x81` only. -/
def ifaceEp : USBInterface :=
  { number := 0, alternate := 0, endpoints := [(129, epIn1)] }

/-- An endpoint colliding with `epIn1` at address `0x81` but otherwise
different. -/
def epIn1Colliding : USBEndpoint :=
  { number := 1, direction := .IN, descriptorBytes := [], attached_descriptors := [],
    parent := none }

/-- Witness for claim C5: re-adding address `0x81` fails and leaves the
registry with the original endpoint, while adding address `0x02` succeeds and
records the parent link. -/
theorem add_endpoint_spec_witness :
    ifaceEp.add_endpoint epIn1Colliding = .error "DuplicateEndpointAddress" ∧
    exceptState ifaceEp (ifaceEp.add_endpoint epIn1Colliding) = ifaceEp ∧
    dictFind 129 (exceptState ifaceEp (ifaceEp.add_endpoint epIn1Colliding)).endpoints =
      some epIn1 ∧
    dictFind 2 (exceptState ifaceEp (ifaceEp.add_endpoint epOut2)).endpoints =
      some ({ epOut2 with parent := some (0, 0) }) := by
  have hdup := (add_endpoint_spec ifaceEp epIn1Colliding).2.1 (by rfl)
  have hok := (add_endpoint_spec ifaceEp epOut2).2.2 (by rfl)
  exact ⟨hdup.1, hdup.2, by rw [hdup.2]; rfl, hok.2⟩

/-- A requestable descriptor with identifier `(0x21, 5)`. -/
def descNum5 : USBDescriptor :=
  { type_number := 33, number := some 5, include_in_config := false,
    source := .static [1, 2], parent := none }

/-- An attached (include-in-config) descriptor without a number. -/
def descAttached : USBDescriptor :=
  { type_number := 33, number := none, include_in_config := true,
    source := .static [3, 4], parent := none }

/-- Interface fixture with one attached and one requestable descriptor. -/
def ifaceDesc : USBInterface :=
  { number := 1, alternate := 0, attached_descriptors := [descAttached],
    requestable_descriptors := [((33, some 5), descNum5)] }

/-- A non-attachable descriptor without a number (rejected). -/
def descNoNumber : USBDescriptor :=
  { type_number := 33, number := none, include_in_config := false,
    source := .static [], parent := none }

/-- A descriptor whose identifier collides with `descNum5` (rejected). -/
def descDup5 : USBDescriptor :=
  { type_number := 33, number := some 5, include_in_config := false,
    source := .static [9], parent := none }

/-- A requestable descriptor under the fresh identifier `(0x21, 6)`. -/
def descNum6 : USBDescriptor :=
  { type_number := 33, number := some 6, include_in_config := false,
    source := .static [7], parent := none }

/-- Witness for claim C6: a numberless non-attached descriptor and a duplicate
identifier are both rejected without touching the registries, and a fresh
identifier is inserted with its parent link set. -/
theorem add_descriptor_requestable_spec_witness :
    ifaceDesc.add_descriptor descNoNumber = .error "MissingDescriptorNumber" ∧
    ifaceDesc.add_descriptor descDup5 = .error "DuplicateDescriptorIdentifier" ∧
    exceptState ifaceDesc (ifaceDesc.add_descriptor descNoNumber) = ifaceDesc ∧
    exceptState ifaceDesc (ifaceDesc.add_descriptor descDup5) = ifaceDesc ∧
    ifaceDesc.add_descriptor descNum6 =
      .ok { ifaceDesc with requestable_descriptors := [((33, some 5), descNum5), ((33, some 6), ({ descNum6 with parent := some (1, 0) }))] } := by
  have h1 := (add_descriptor_requestable_spec ifaceDesc descNoNumber rfl).1 rfl
  have h2 := (add_descriptor_requestable_spec ifaceDesc descDup5 rfl).2.1
    (by simp [descDup5]) (by rfl)
  have h3 := (add_descriptor_requestable_spec ifaceDesc descNoNumber rfl).2.2.1 ⟨_, h1⟩
  have h4 := (add_descriptor_requestable_spec ifaceDesc descDup5 rfl).2.2.1 ⟨_, h2⟩
  have h5 := (add_descriptor_requestable_spec ifaceDesc descNum6 rfl).2.2.2
    (by simp [descNum6]) (by rfl)
  exact ⟨h1, h2, h3, h4, by rw [h5]; rfl⟩

/-- An attached descriptor whose identifier `(0x21, 5)` already exists in the
requestable registry and which duplicates an attached identifier — accepted
regardless. -/
def descAttachedDup : USBDescriptor :=
  { type_number := 33, number := some 5, include_in_config := true,
    source := .static [8], parent := none }

/-- Witness for claim C9: an include-in-config descriptor is appended even
when numberless and even when its identifier already exists both in the
requestable registry and among the attached descriptors. -/
theorem add_descriptor_attached_spec_witness :
    ifaceDesc.add_descriptor descAttachedDup =
      .ok { ifaceDesc with attached_descriptors := [descAttached, ({ descAttachedDup with parent := some (1, 0) })] } ∧
    ifaceDesc.add_descriptor descAttached =
      .ok { ifaceDesc with attached_descriptors := [descAttached, ({ descAttached with parent := some (1, 0) })] } := by
  have h1 := (add_descriptor_attached_spec ifaceDesc descAttachedDup).1 rfl
  have h2 := (add_descriptor_attached_spec ifaceDesc descAttached).1 rfl
  exact ⟨by rw [h1]; rfl, by rw [h2]; rfl⟩

theorem foldl_append_flatten {α β : Type} (f : α → List β) (l : List α) (acc : List β) :
    l.foldl (fun a x => a ++ f x) acc = acc ++ (l.map f).flatten := by
  induction l generalizing acc with
  | nil => simp
  | cons x t ih => simp [ih, List.append_assoc]

/-- Claim C2: the encoded interface block is exactly the 9-byte Table 9-12
header, followed by every attached descriptor-source resolved in insertion
order, followed by each endpoint's descriptor bytes and that endpoint's own
resolved descriptor-sources, in registry order; its length is 9 plus the sum
of those segments' lengths, and its first two bytes are `(9, 4)`. -/
theorem get_descriptor_spec (get_index : Option String → Nat) (i : USBInterface) :
    USBInterface.get_descriptor get_index i =
      [9, 4, i.number, i.alternate, i.endpoints.length, i.class_number, i.subclass_number, i.protocol_number, get_index i.interface_string]
        ++ (i.attached_descriptors.map (fun descriptor => descriptor.source.resolve)).flatten
        ++ ((dictValues i.endpoints).map (fun e => e.descriptorBytes ++ (e.attached_descriptors.map (fun descriptor => descriptor.source.resolve)).flatten)).flatten ∧
    (USBInterface.get_descriptor get_index i).length =
      9 + ((i.attached_descriptors.map (fun descriptor => descriptor.source.resolve.length)).sum
        + ((dictValues i.endpoints).map (fun e => e.descriptorBytes.length + (e.attached_descriptors.map (fun descriptor => descriptor.source.resolve.length)).sum)).sum) ∧
    (USBInterface.get_descriptor get_index i).take 2 = [9, 4] := by
  have h1 : USBInterface.get_descriptor get_index i =
      [9, 4, i.number, i.alternate, i.endpoints.length, i.class_number, i.subclass_number, i.protocol_number, get_index i.interface_string]
        ++ (i.attached_descriptors.map (fun descriptor => descriptor.source.resolve)).flatten
        ++ ((dictValues i.endpoints).map (fun e => e.descriptorBytes ++ (e.attached_descriptors.map (fun descriptor => descriptor.source.resolve)).flatten)).flatten := by
    simp only [USBInterface.get_descriptor, foldl_append_flatten, List.append_assoc]
  refine ⟨h1, ?_, ?_⟩
  · rw [h1]
    simp only [List.length_append, List.length_flatten, List.map_map,
      Function.comp_def, List.length_cons, List.length_nil]
    omega
  · rw [h1]
    rfl

/-- Claim C7: parsing a 9-byte wire blob yields an interface whose class
fields come from bytes 2 through 7 (byte 4, the endpoint count, excepted),
whose string reference is the table lookup of byte 8, whose `name` is null,
and whose endpoint and descriptor registries are empty. -/
theorem from_binary_descriptor_spec (data : List Nat) (strings : Nat → Option String)
    (h : data.length = 9) :
    ∃ i : USBInterface, USBInterface.from_binary_descriptor data strings = some i ∧
      i.number = data.getD 2 0 ∧ i.alternate = data.getD 3 0 ∧
      i.class_number = data.getD 5 0 ∧ i.subclass_number = data.getD 6 0 ∧
      i.protocol_number = data.getD 7 0 ∧
      i.interface_string = StringRef.lookup strings (data.getD 8 0) ∧
      i.name = none ∧ i.endpoints = [] ∧ i.attached_descriptors = [] ∧
      i.requestable_descriptors = [] := by
  unfold USBInterface.from_binary_descriptor
  rw [if_pos (by omega)]
  exact ⟨_, rfl, rfl, rfl, rfl, rfl, rfl, rfl, rfl, rfl, rfl, rfl⟩

/-- Witness for claim C7 on a concrete blob. -/
theorem from_binary_descriptor_spec_witness :
    ∃ i : USBInterface,
      USBInterface.from_binary_descriptor [9, 4, 1, 2, 9, 3, 4, 5, 6] (fun _ => none) =
        some i ∧
      i.number = 1 ∧ i.alternate = 2 ∧ i.class_number = 3 ∧ i.endpoints = [] := by
  obtain ⟨i, hsome, hn, ha, hc, _, _, _, _, hep, _, _⟩ :=
    from_binary_descriptor_spec [9, 4, 1, 2, 9, 3, 4, 5, 6] (fun _ => none) rfl
  exact ⟨i, hsome, hn, ha, hc, hep⟩

/-- Claim C10: the result of `from_binary_descriptor` does not depend on byte
0, 1 or 4 of the blob — two 9-byte blobs that differ only at index 4, or only
at indices 0 or 1, parse to equal interfaces — and the declared endpoint count
is discarded: the parsed interface's registries are empty. -/
theorem from_binary_descriptor_ignores_spec (strings : Nat → Option String)
    (d1 d2 : List Nat) (h1 : d1.length = 9) (h2 : d2.length = 9) :
    ((∀ j, j ≠ 4 → d1.getD j 0 = d2.getD j 0) →
      USBInterface.from_binary_descriptor d1 strings =
        USBInterface.from_binary_descriptor d2 strings) ∧
    ((∀ j, j ≠ 0 → j ≠ 1 → d1.getD j 0 = d2.getD j 0) →
      USBInterface.from_binary_descriptor d1 strings =
        USBInterface.from_binary_descriptor d2 strings) ∧
    (∀ i : USBInterface, USBInterface.from_binary_descriptor d1 strings = some i →
      i.endpoints = [] ∧ i.attached_descriptors = [] ∧
      i.requestable_descriptors = []) := by
  have key : (∀ j, j ∈ ([2, 3, 5, 6, 7, 8] : List Nat) → d1.getD j 0 = d2.getD j 0) →
      USBInterface.from_binary_descriptor d1 strings =
        USBInterface.from_binary_descriptor d2 strings := by
    intro hag
    unfold USBInterface.from_binary_descriptor
    rw [if_pos (by omega), if_pos (by omega),
      hag 2 (by simp), hag 3 (by simp), hag 5 (by simp), hag 6 (by simp),
      hag 7 (by simp), hag 8 (by simp)]
  refine ⟨fun hne => key ?_, fun hne => key ?_, fun i hi => ?_⟩
  · intro j hjm
    have hj : j = 2 ∨ j = 3 ∨ j = 5 ∨ j = 6 ∨ j = 7 ∨ j = 8 := by simpa using hjm
    exact hne j (by omega)
  · intro j hjm
    have hj : j = 2 ∨ j = 3 ∨ j = 5 ∨ j = 6 ∨ j = 7 ∨ j = 8 := by simpa using hjm
    exact hne j (by omega) (by omega)
  · unfold USBInterface.from_binary_descriptor at hi
    rw [if_pos (by omega)] at hi
    cases hi
    exact ⟨rfl, rfl, rfl⟩

/-- Witness for claim C10: changing byte 4, or bytes 0 and 1, of a concrete
blob leaves the parse unchanged. -/
theorem from_binary_descriptor_ignores_witness :
    USBInterface.from_binary_descriptor [9, 4, 1, 2, 7, 3, 4, 5, 6] (fun _ => none) =
      USBInterface.from_binary_descriptor [9, 4, 1, 2, 77, 3, 4, 5, 6] (fun _ => none) ∧
    USBInterface.from_binary_descriptor [9, 4, 1, 2, 7, 3, 4, 5, 6] (fun _ => none) =
      USBInterface.from_binary_descriptor [0, 0, 1, 2, 7, 3, 4, 5, 6] (fun _ => none) := by
  constructor
  · refine (from_binary_descriptor_ignores_spec (fun _ => none)
      [9, 4, 1, 2, 7, 3, 4, 5, 6] [9, 4, 1, 2, 77, 3, 4, 5, 6] rfl rfl).1 ?_
    intro j hj
    match j with
    | 0 | 1 | 2 | 3 | 5 | 6 | 7 | 8 => rfl
    | 4 => exact absurd rfl hj
    | (n + 9) =>
        rw [List.getD_eq_default _ _ (by simp), List.getD_eq_default _ _ (by simp)]
  · refine (from_binary_descriptor_ignores_spec (fun _ => none)
      [9, 4, 1, 2, 7, 3, 4, 5, 6] [0, 0, 1, 2, 7, 3, 4, 5, 6] rfl rfl).2.1 ?_
    intro j hj0 hj1
    match j with
    | 0 => exact absurd rfl hj0
    | 1 => exact absurd rfl hj1
    | 2 | 3 | 4 | 5 | 6 | 7 | 8 => rfl
    | (n + 9) =>
        rw [List.getD_eq_default _ _ (by simp), List.getD_eq_default _ _ (by simp)]

/-- Claim C8 (amended): when an endpoint with the event's number and direction
is registered, a data-received or data-requested event is forwarded to the
event's own endpoint object and the device is not notified; when none is
registered, the event is reported to the device's unexpected-traffic handler
with the raw endpoint number (and the payload for data-received). -/
theorem traffic_routing_spec (i : USBInterface) (endpoint : USBEndpoint)
    (data : List Nat) :
    (i.has_endpoint endpoint.number endpoint.direction = true →
      handle_data_received i endpoint data =
        DataReceivedResult.forwarded endpoint data ∧
      handle_data_requested i endpoint = DataRequestedResult.forwarded endpoint) ∧
    (i.has_endpoint endpoint.number endpoint.direction = false →
      handle_data_received i endpoint data =
        DataReceivedResult.unexpected endpoint.number data ∧
      handle_data_requested i endpoint =
        DataRequestedResult.unexpected endpoint.number) := by
  constructor
  · intro h
    exact ⟨by simp [handle_data_received, h], by simp [handle_data_requested, h]⟩
  · intro h
    exact ⟨by simp [handle_data_received, h], by simp [handle_data_requested, h]⟩

/-- Witness for claim C8's amended theorem: a registered endpoint receives its
data, an unregistered one is reported as unexpected traffic. -/
theorem traffic_routing_spec_witness :
    handle_data_received ifaceEp epIn1 [5] = DataReceivedResult.forwarded epIn1 [5] ∧
    handle_data_requested ifaceEp epOut2 = DataRequestedResult.unexpected 2 := by
  exact ⟨((traffic_routing_spec ifaceEp epIn1 [5]).1 rfl).1,
    ((traffic_routing_spec ifaceEp epOut2 [5]).2 rfl).2⟩

/-- Counterexample to claim C8 as stated: endpoint `epIn1` is registered for
`(1, IN)`, yet a data-received event carrying a different endpoint object with
the same number and direction is forwarded to that event object, not to the
registered entry. -/
theorem traffic_routing_counterexample :
    ifaceEp.get_endpoint 1 USBDirection.IN = some epIn1 ∧
    handle_data_received ifaceEp epIn1Colliding [5] =
      DataReceivedResult.forwarded epIn1Colliding [5] ∧
    handle_data_received ifaceEp epIn1Colliding [5] ≠
      DataReceivedResult.forwarded epIn1 [5] := by
  refine ⟨rfl, rfl, ?_⟩
  intro h
  rw [show handle_data_received ifaceEp epIn1Colliding [5] =
      DataReceivedResult.forwarded epIn1Colliding [5] from rfl] at h
  injection h with ha hb
  exact absurd (congrArg USBEndpoint.descriptorBytes ha)
    (by simp [epIn1Colliding, epIn1])

end Facedancer
